import Mathlib

/-!
Shallow embedding of the messaging core of a single-file Node backend
(Express + Socket.IO + Mongoose), file backend_app_Version2.js.

Identifiers (Mongo ObjectIds, JWT-embedded ids, room names) are modelled as
Lean String values.  Fields of a request body or socket payload that may be
absent (JavaScript undefined) are Option String; JavaScript truthiness on
such values ("" and undefined are falsy) and String(x) coercion
(String(undefined) = "undefined") are modelled explicitly.  A fallible
persistence layer (message.save can reject) is modelled by a Bool
parameter storageOk; a rejected save makes the async handler's promise
reject, embedded as Except.error StorageUnavailable.  The message store is
the list of persisted Message records in insertion order; Date.now
timestamps are a Nat parameter supplied per call.
-/

/-- JavaScript truthiness of a possibly-undefined string:
undefined and the empty string are falsy. -/
def truthy : Option String → Bool
  | none => false
  | some s => if s = "" then false else true

/-- JavaScript expression a || b on possibly-undefined strings:
the first operand when truthy, otherwise the second. -/
def jsOr (a b : Option String) : Option String :=
  if truthy a then a else b

/-- JavaScript String(x) coercion on a possibly-undefined string. -/
def jsString : Option String → String
  | some s => s
  | none => "undefined"

/-- A persisted chat message (Mongoose Message model).  sender and receiver
are left unset when the corresponding input was undefined; createdAt is the
Date.now default assigned on persist. -/
structure Message where
  sender : Option String
  receiver : Option String
  text : Option String
  media_url : Option String
  createdAt : Nat
  deriving DecidableEq, Repr

/-- One Socket.IO emit of a persisted message to a room:
io.to(room).emit('message', payload). -/
structure Push where
  room : String
  payload : Message
  deriving DecidableEq, Repr

/-- A live Socket.IO connection: its id, the optional user identity set by
the handshake middleware, and the rooms it joined. -/
structure Socket where
  sid : String
  userId : Option String
  rooms : List String
  deriving DecidableEq, Repr

/-- Error surfaced when the persistence layer rejects a save. -/
inductive SendError where
  | storageUnavailable
  deriving DecidableEq, Repr

/-- What a send handler did: the store after the save, the persisted record
(the HTTP handler also returns it as the response body), and the emits it
issued. -/
structure SendOutcome where
  newStore : List Message
  message : Message
  pushes : List Push
  deriving DecidableEq, Repr

/-- Embeds app.post('/messages'): build a Message with sender = the
authenticated req.userId and receiver = req.body.receiverId, await
msg.save(), then emit the record to room String(receiverId) and respond
with the record.  A rejected save aborts the handler before any emit. -/
def postMessages (userId : String) (receiverId text media_url : Option String)
    (now : Nat) (storageOk : Bool) (store : List Message) :
    Except SendError SendOutcome :=
  let msg : Message :=
    { sender := some userId, receiver := receiverId, text := text,
      media_url := media_url, createdAt := now }
  if storageOk then
    Except.ok
      { newStore := store ++ [msg], message := msg,
        pushes := [{ room := jsString receiverId, payload := msg }] }
  else
    Except.error SendError.storageUnavailable

/-- Embeds socket.on('sendMessage'): the persisted sender is
socket.userId || payload.from; after await message.save() the record is
emitted to room String(payload.to) and to room String(message.sender).
A rejected save aborts the handler before any emit. -/
def onSendMessage (socketUserId pFrom pTo ptext pmedia : Option String)
    (now : Nat) (storageOk : Bool) (store : List Message) :
    Except SendError SendOutcome :=
  let msg : Message :=
    { sender := jsOr socketUserId pFrom, receiver := pTo, text := ptext,
      media_url := pmedia, createdAt := now }
  if storageOk then
    Except.ok
      { newStore := store ++ [msg], message := msg,
        pushes := [{ room := jsString pTo, payload := msg },
                   { room := jsString msg.sender, payload := msg }] }
  else
    Except.error SendError.storageUnavailable

/-- The Mongo filter of app.get('/messages/:userId'):
\x7b $or: [ \x7b sender: a, receiver: b \x7d, \x7b sender: b, receiver: a \x7d ] \x7d.
A document with a missing field does not match an equality condition. -/
def matchPair (a b : String) (m : Message) : Bool :=
  (m.sender == some a && m.receiver == some b) ||
  (m.sender == some b && m.receiver == some a)

/-- Ascending order on creation timestamps: .sort(\x7b createdAt: 1 \x7d). -/
def timeLE (m1 m2 : Message) : Prop :=
  m1.createdAt ≤ m2.createdAt

instance : DecidableRel timeLE :=
  fun m1 m2 => Nat.decLe m1.createdAt m2.createdAt

instance : IsTotal Message timeLE :=
  ⟨fun a b => Nat.le_total a.createdAt b.createdAt⟩

instance : IsTrans Message timeLE :=
  ⟨fun _ _ _ h1 h2 => Nat.le_trans h1 h2⟩

/-- Embeds app.get('/messages/:userId') for authenticated caller userId and
path parameter other: Message.find with the two-directional participant
filter, sorted ascending by createdAt, limited to 1000 documents. -/
def getMessages (userId other : String) (store : List Message) : List Message :=
  (List.insertionSort timeLE (store.filter (matchPair userId other))).take 1000

/-- Embeds the io.use handshake middleware: no token or a token that
jwt.verify rejects leaves socket.userId unset (next() is called in every
branch, so the connection is always accepted); a verified token sets
socket.userId to the embedded id. -/
def socketAuth (verify : String → Option String) (token : Option String) :
    Option String :=
  match token with
  | none => none
  | some t => verify t

/-- Embeds the connection handler's room join:
if (socket.userId) socket.join(String(socket.userId)). -/
def joinedRooms (userId : Option String) : List String :=
  if truthy userId then [jsString userId] else []

/-- A freshly connected socket: identity from the handshake middleware,
rooms from the connection handler. -/
def connectSocket (sid : String) (verify : String → Option String)
    (token : Option String) : Socket :=
  let uid := socketAuth verify token
  { sid := sid, userId := uid, rooms := joinedRooms uid }

/-- The live sessions of user u among the connected sockets: io keeps one
room per authenticated user, named by the user id, holding all of that
user's connections. -/
def sessionsFor (u : String) (socks : List Socket) : List Socket :=
  socks.filter (fun s => s.userId == some u)

/-- Whether an emit to a room reaches a socket with the given room list. -/
def deliversTo (p : Push) (rooms : List String) : Bool :=
  rooms.contains p.room

/-- Whether a socket receives at least one of the issued pushes. -/
def receivesAnyPush (s : Socket) (ps : List Push) : Bool :=
  ps.any (fun p => s.rooms.contains p.room)

/-- The pushes of a send outcome; a failed send issued none. -/
def pushesOf (e : Except SendError SendOutcome) : List Push :=
  match e with
  | Except.ok r => r.pushes
  | Except.error _ => []

/-- The store after a send; a failed send leaves the prior store. -/
def storeAfter (e : Except SendError SendOutcome) (old : List Message) :
    List Message :=
  match e with
  | Except.ok r => r.newStore
  | Except.error _ => old

/-- The sender recorded by a successful send. -/
def sentSender (e : Except SendError SendOutcome) : Option (Option String) :=
  match e with
  | Except.ok r => some r.message.sender
  | Except.error _ => none

/-! ### Helper lemmas -/

theorem jsOr_of_truthy (u : String) (hu : u ≠ "") (b : Option String) :
    jsOr (some u) b = some u := by
  simp [jsOr, truthy, hu]

theorem matchPair_symm (a b : String) (m : Message) :
    matchPair a b m = matchPair b a m := by
  unfold matchPair
  exact Bool.or_comm _ _

theorem matchPair_eq_true_iff (a b : String) (m : Message) :
    matchPair a b m = true ↔
      ({m.sender, m.receiver} : Set (Option String)) = {some a, some b} := by
  simp [matchPair, Set.pair_eq_pair_iff]

/-! ### Claims -/

/-- Claim C3: if persisting fails, both the synchronous handler and the
socket handler fail with StorageUnavailable as a whole: the handler's
result is the error, the store is unchanged (no record created), and no
push is emitted; the synchronous caller gets the failure, not a message. -/
theorem send_storage_failure_atomic (u : String) (r t m : Option String)
    (su f pTo pt pm : Option String) (now : Nat) (store : List Message) :
    postMessages u r t m now false store = Except.error SendError.storageUnavailable
    ∧ onSendMessage su f pTo pt pm now false store = Except.error SendError.storageUnavailable
    ∧ storeAfter (postMessages u r t m now false store) store = store
    ∧ pushesOf (postMessages u r t m now false store) = []
    ∧ storeAfter (onSendMessage su f pTo pt pm now false store) store = store
    ∧ pushesOf (onSendMessage su f pTo pt pm now false store) = [] :=
  ⟨rfl, rfl, rfl, rfl, rfl, rfl⟩

/-- Claim C4: a sendMessage event on an anonymous connection
(socket.userId unset) is accepted, and the persisted sender is exactly the
payload's from field; the echo push goes to room String(from). -/
theorem anonymous_send_uses_payload_from (pFrom pTo pt pm : Option String)
    (now : Nat) (store : List Message) :
    onSendMessage none pFrom pTo pt pm now true store =
      Except.ok
        ⟨store ++ [⟨pFrom, pTo, pt, pm, now⟩], ⟨pFrom, pTo, pt, pm, now⟩,
         [⟨jsString pTo, ⟨pFrom, pTo, pt, pm, now⟩⟩,
          ⟨jsString pFrom, ⟨pFrom, pTo, pt, pm, now⟩⟩]⟩ := rfl

/-- Claim C6: the history query is symmetric in the participant pair:
getMessages a b and getMessages b a agree on every store. -/
theorem getMessages_symm (a b : String) (store : List Message) :
    getMessages a b store = getMessages b a store := by
  unfold getMessages
  rw [List.filter_congr (fun m _ => matchPair_symm a b m)]

/-- Claim C7 counterexample: a submit-message request with no receiverId
(a missing required field per the spec's data model) does not fail with a
Validation error: it succeeds and persists a record with no receiver,
emitting to the literal room "undefined". -/
theorem missing_receiver_still_persists :
    postMessages "u1" none (some "hi") none 5 true [] =
      Except.ok ⟨[⟨some "u1", none, some "hi", none, 5⟩],
                 ⟨some "u1", none, some "hi", none, 5⟩,
                 [⟨"undefined", ⟨some "u1", none, some "hi", none, 5⟩⟩]⟩
    ∧ storeAfter (postMessages "u1" none (some "hi") none 5 true []) [] ≠ [] :=
  ⟨rfl, by decide⟩

/-- Claim C7 amended: POST /messages performs no request-body validation:
a request missing receiverId still succeeds whenever storage is available,
persisting a message whose receiver is unset and emitting to room
String(undefined) = "undefined"; no Validation error exists on this path. -/
theorem no_validation_on_post_messages (u : String) (t m : Option String)
    (now : Nat) (store : List Message) :
    postMessages u none t m now true store =
      Except.ok ⟨store ++ [⟨some u, none, t, m, now⟩], ⟨some u, none, t, m, now⟩,
                 [⟨"undefined", ⟨some u, none, t, m, now⟩⟩]⟩ := rfl

/-- Claim C9: on an authenticated connection (socket.userId = u, a
nonempty id), the outcome of sendMessage is identical for any two payload
from fields, and the persisted sender is the connection's user id. -/
theorem authenticated_send_ignores_payload_from (u : String) (hu : u ≠ "")
    (from1 from2 pTo pt pm : Option String) (now : Nat) (ok : Bool)
    (store : List Message) :
    onSendMessage (some u) from1 pTo pt pm now ok store =
      onSendMessage (some u) from2 pTo pt pm now ok store
    ∧ sentSender (onSendMessage (some u) from1 pTo pt pm now true store) =
        some (some u) := by
  constructor
  · simp [onSendMessage, jsOr_of_truthy u hu]
  · simp [onSendMessage, sentSender, jsOr_of_truthy u hu]

/-- Witness for C9 at a concrete authenticated connection and two distinct
claimed senders. -/
theorem authenticated_send_ignores_payload_from_witness :
    onSendMessage (some "u1") (some "mallory") (some "u2") (some "hi") none 5 true []
      = onSendMessage (some "u1") (some "eve") (some "u2") (some "hi") none 5 true []
    ∧ sentSender (onSendMessage (some "u1") (some "mallory") (some "u2") (some "hi") none 5 true [])
      = some (some "u1") :=
  authenticated_send_ignores_payload_from "u1" (by decide) (some "mallory")
    (some "eve") (some "u2") (some "hi") none 5 true []

/-- A concrete stored message between u1 and u2, used by the witnesses. -/
def mW : Message := ⟨some "u1", some "u2", some "hi", none, 0⟩

/-- Claim C5: a persistent-connection attempt whose token is missing or
fails verification (malformed, expired, badly signed — every case where
jwt.verify throws) is still accepted, but as an anonymous session: no user
identity, no per-user room, hence unreachable by any room-targeted push. -/
theorem unauthenticated_connection_anonymous (verify : String → Option String)
    (token : Option String) (sid : String)
    (h : ∀ t, token = some t → verify t = none) :
    socketAuth verify token = none
    ∧ connectSocket sid verify token = ⟨sid, none, []⟩
    ∧ ∀ p : Push, deliversTo p (connectSocket sid verify token).rooms = false := by
  have h0 : socketAuth verify token = none := by
    cases token with
    | none => rfl
    | some t => exact h t rfl
  refine ⟨h0, ?_, ?_⟩
  · simp [connectSocket, h0, joinedRooms, truthy]
  · intro p
    simp [connectSocket, h0, joinedRooms, truthy, deliversTo]

/-- Witness for C5: a connection presenting a token that fails
verification carries no identity and receives no room-targeted push. -/
theorem unauthenticated_connection_anonymous_witness :
    socketAuth (fun _ => none) (some "badtoken") = none
    ∧ deliversTo ⟨"u1", mW⟩ (connectSocket "c9" (fun _ => none) (some "badtoken")).rooms = false :=
  ⟨(unauthenticated_connection_anonymous (fun _ => none) (some "badtoken") "c9"
      (fun _ _ => rfl)).1,
   (unauthenticated_connection_anonymous (fun _ => none) (some "badtoken") "c9"
      (fun _ _ => rfl)).2.2 ⟨"u1", mW⟩⟩

/-- Claim C10: every message returned by the history route has the
authenticated caller as its sender or its receiver, whatever path
parameter the caller supplies. -/
theorem history_only_participants (caller other : String) (store : List Message)
    (m : Message) (hm : m ∈ getMessages caller other store) :
    m.sender = some caller ∨ m.receiver = some caller := by
  unfold getMessages at hm
  have h1 : m ∈ List.insertionSort timeLE (store.filter (matchPair caller other)) :=
    (List.take_sublist 1000 _).subset hm
  have h2 : m ∈ store.filter (matchPair caller other) :=
    (List.perm_insertionSort timeLE _).subset h1
  have h3 : matchPair caller other m = true := List.of_mem_filter h2
  simp [matchPair] at h3
  rcases h3 with ⟨hs, _⟩ | ⟨_, hr⟩
  · exact Or.inl hs
  · exact Or.inr hr

/-- Witness for C10 at a concrete store holding a single message. -/
theorem history_only_participants_witness :
    mW.sender = some "u1" ∨ mW.receiver = some "u1" :=
  history_only_participants "u1" "u2" [mW] mW (by decide)

/-- Claim C2: every message the history fetch returns is a stored message
whose unordered participant pair is exactly the caller/parameter pair; the
result is ascending in creation time and holds at most 1000 entries; and
whenever at most 1000 stored messages match, it is exactly the matching
messages (up to order). -/
theorem history_range_spec (a b : String) (store : List Message) :
    (∀ m ∈ getMessages a b store,
        ({m.sender, m.receiver} : Set (Option String)) = {some a, some b} ∧ m ∈ store)
    ∧ List.Sorted timeLE (getMessages a b store)
    ∧ (getMessages a b store).length ≤ 1000
    ∧ ((store.filter (matchPair a b)).length ≤ 1000 →
        (getMessages a b store).Perm (store.filter (matchPair a b))) := by
  refine ⟨?_, ?_, ?_, ?_⟩
  · intro m hm
    unfold getMessages at hm
    have h1 := (List.take_sublist 1000 _).subset hm
    have h2 := (List.perm_insertionSort timeLE _).subset h1
    exact ⟨(matchPair_eq_true_iff a b m).mp (List.of_mem_filter h2),
           List.mem_of_mem_filter h2⟩
  · exact List.Pairwise.sublist (List.take_sublist 1000 _)
      (List.sorted_insertionSort timeLE _)
  · exact List.length_take_le 1000 _
  · intro hlen
    have hps := List.perm_insertionSort timeLE (store.filter (matchPair a b))
    have hlen2 : (List.insertionSort timeLE (store.filter (matchPair a b))).length ≤ 1000 := by
      rw [hps.length_eq]; exact hlen
    unfold getMessages
    rw [List.take_of_length_le hlen2]
    exact hps

/-- Witness for C2 on a one-message store: the fetch returns exactly the
matching messages. -/
theorem history_range_spec_witness :
    (getMessages "u1" "u2" [mW]).Perm ([mW].filter (matchPair "u1" "u2")) :=
  (history_range_spec "u1" "u2" [mW]).2.2.2 (by decide)

/-- A live connection of user u1: authenticated socket joined to room u1. -/
def senderSocket : Socket := ⟨"c1", some "u1", ["u1"]⟩

/-- Claim C1 counterexample: with exactly one live session, belonging to
the sender u1 (a genuinely connected, authenticated socket joined to room
u1), a successful POST /messages send from u1 to u2 delivers a push to no
session of the sender: the synchronous transport does not push to the
union of both parties' session sets. -/
theorem http_send_skips_sender_sessions :
    connectSocket "c1" (fun _ => some "u1") (some "tok") = senderSocket
    ∧ senderSocket ∈ sessionsFor "u1" [senderSocket]
    ∧ receivesAnyPush senderSocket
        (pushesOf (postMessages "u1" (some "u2") (some "hi") none 5 true [])) = false := by
  decide

/-- Claim C1 amended: after a successful persist, the persistent-connection
transport pushes to the rooms of both parties (payload.to and the resolved
sender), so every live session of either party receives the message; the
synchronous transport pushes only to the receiver's room — every live
session of the receiver receives it, while a live session of the sender
(for a sender distinct from the receiver) receives nothing from that path. -/
theorem push_targets_per_transport (sender recv : String) (t mu : Option String)
    (now : Nat) (store : List Message) (s : Socket)
    (hs : s.rooms = joinedRooms s.userId)
    (su pFrom pTo pt pm : Option String) :
    (pushesOf (postMessages sender (some recv) t mu now true store)).map Push.room = [recv]
    ∧ (s.userId = some recv → recv ≠ "" →
        receivesAnyPush s (pushesOf (postMessages sender (some recv) t mu now true store)) = true)
    ∧ (s.userId = some sender → sender ≠ "" → sender ≠ recv →
        receivesAnyPush s (pushesOf (postMessages sender (some recv) t mu now true store)) = false)
    ∧ (pushesOf (onSendMessage su pFrom pTo pt pm now true store)).map Push.room
        = [jsString pTo, jsString (jsOr su pFrom)]
    ∧ (∀ u : String, u ≠ "" → s.userId = some u →
        (pTo = some u ∨ jsOr su pFrom = some u) →
        receivesAnyPush s (pushesOf (onSendMessage su pFrom pTo pt pm now true store)) = true) := by
  refine ⟨rfl, ?_, ?_, rfl, ?_⟩
  · intro hu hne
    rw [hu] at hs
    simp [receivesAnyPush, hs, joinedRooms, truthy, hne, postMessages, pushesOf, jsString]
  · intro hu hne hd
    rw [hu] at hs
    simp [receivesAnyPush, hs, joinedRooms, truthy, hne, postMessages, pushesOf, jsString]
    exact fun habs => hd habs.symm
  · intro u hu hun hor
    rw [hun] at hs
    rcases hor with h1 | h1
    · subst h1
      simp [receivesAnyPush, hs, joinedRooms, truthy, hu, onSendMessage, pushesOf, jsString]
    · simp [receivesAnyPush, hs, joinedRooms, truthy, hu, onSendMessage, pushesOf, jsString, h1]

/-- Witness for the amended C1: a live session of the receiver u2 does
receive the push of a successful synchronous send. -/
theorem push_targets_per_transport_witness :
    receivesAnyPush ⟨"c2", some "u2", ["u2"]⟩
      (pushesOf (postMessages "u1" (some "u2") (some "hi") none 5 true [])) = true :=
  (push_targets_per_transport "u1" "u2" (some "hi") none 5 [] ⟨"c2", some "u2", ["u2"]⟩
      (by decide) none none none none none).2.1 rfl (by decide)

/-- A stored message of the pair (u1, u2) with timestamp 0. -/
def mOld : Message := ⟨some "u1", some "u2", some "old", none, 0⟩

/-- A store already holding 1000 messages of the pair (u1, u2). -/
def bigStore : List Message := List.replicate 1000 mOld

/-- The record a send from u1 to u2 at time 1 persists. -/
def mNew : Message := ⟨some "u1", some "u2", some "hi", none, 1⟩

set_option maxRecDepth 8000 in
/-- Claim C8 counterexample: with no live sessions at all, a send from u1
to u2 over a store already holding 1000 messages of that pair succeeds and
durably persists the new message, yet the subsequent history query for the
pair does not return it: the query's 1000-entry truncation cuts off the
newest message. -/
theorem send_persisted_but_out_of_range :
    sessionsFor "u1" [] = []
    ∧ sessionsFor "u2" [] = []
    ∧ postMessages "u1" (some "u2") (some "hi") none 1 true bigStore =
        Except.ok ⟨bigStore ++ [mNew], mNew, [⟨"u2", mNew⟩]⟩
    ∧ mNew ∈ storeAfter (postMessages "u1" (some "u2") (some "hi") none 1 true bigStore) bigStore
    ∧ mNew ∉ getMessages "u1" "u2" (bigStore ++ [mNew]) := by
  refine ⟨rfl, rfl, rfl, ?_, ?_⟩
  · decide
  · decide

/-- Helper for the amended C8: a freshly appended message of the pair
(sender, recv) is returned by the history query for that pair whenever
fewer than 1000 previously stored messages match the pair. -/
theorem mem_getMessages_append (sender recv : String) (t mu : Option String)
    (now : Nat) (store : List Message)
    (hcount : (store.filter (matchPair sender recv)).length < 1000) :
    (⟨some sender, some recv, t, mu, now⟩ : Message) ∈
      getMessages sender recv (store ++ [⟨some sender, some recv, t, mu, now⟩]) := by
  have hmatch : matchPair sender recv (⟨some sender, some recv, t, mu, now⟩ : Message) = true := by
    simp [matchPair]
  have hfil : (store ++ [(⟨some sender, some recv, t, mu, now⟩ : Message)]).filter (matchPair sender recv)
      = store.filter (matchPair sender recv) ++ [(⟨some sender, some recv, t, mu, now⟩ : Message)] := by
    rw [List.filter_append]
    simp [hmatch]
  have hlen : ((store ++ [(⟨some sender, some recv, t, mu, now⟩ : Message)]).filter (matchPair sender recv)).length ≤ 1000 := by
    rw [hfil, List.length_append, List.length_singleton]
    omega
  have hps := List.perm_insertionSort timeLE
    ((store ++ [(⟨some sender, some recv, t, mu, now⟩ : Message)]).filter (matchPair sender recv))
  have hlen2 : (List.insertionSort timeLE
      ((store ++ [(⟨some sender, some recv, t, mu, now⟩ : Message)]).filter (matchPair sender recv))).length ≤ 1000 := by
    rw [hps.length_eq]; exact hlen
  unfold getMessages
  rw [List.take_of_length_le hlen2, hps.mem_iff, hfil]
  exact List.mem_append_right _ (List.mem_singleton.mpr rfl)

/-- Claim C8 amended: a send with no live session for either party, via
either transport (POST /messages, or a sendMessage event whose resolved
sender socket.userId || payload.from is the given sender), still succeeds
without error and durably persists the message, and the subsequent history
query over that participant pair, run on the store the send produced,
returns it provided fewer than 1000 stored messages already match the pair
(otherwise the query's 1000-entry truncation can cut the newest message
off). -/
theorem send_no_sessions_persists (sender recv : String) (t mu : Option String)
    (now : Nat) (store : List Message) (socks : List Socket)
    (su pFrom : Option String)
    (h1 : sessionsFor sender socks = []) (h2 : sessionsFor recv socks = [])
    (hcount : (store.filter (matchPair sender recv)).length < 1000)
    (hsu : jsOr su pFrom = some sender) :
    postMessages sender (some recv) t mu now true store =
      Except.ok ⟨store ++ [⟨some sender, some recv, t, mu, now⟩],
                 ⟨some sender, some recv, t, mu, now⟩,
                 [⟨recv, ⟨some sender, some recv, t, mu, now⟩⟩]⟩
    ∧ (⟨some sender, some recv, t, mu, now⟩ : Message) ∈
        getMessages sender recv
          (storeAfter (postMessages sender (some recv) t mu now true store) store)
    ∧ onSendMessage su pFrom (some recv) t mu now true store =
      Except.ok ⟨store ++ [⟨some sender, some recv, t, mu, now⟩],
                 ⟨some sender, some recv, t, mu, now⟩,
                 [⟨recv, ⟨some sender, some recv, t, mu, now⟩⟩,
                  ⟨sender, ⟨some sender, some recv, t, mu, now⟩⟩]⟩
    ∧ (⟨some sender, some recv, t, mu, now⟩ : Message) ∈
        getMessages sender recv
          (storeAfter (onSendMessage su pFrom (some recv) t mu now true store) store) := by
  have hsock : onSendMessage su pFrom (some recv) t mu now true store =
      Except.ok ⟨store ++ [⟨some sender, some recv, t, mu, now⟩],
                 ⟨some sender, some recv, t, mu, now⟩,
                 [⟨recv, ⟨some sender, some recv, t, mu, now⟩⟩,
                  ⟨sender, ⟨some sender, some recv, t, mu, now⟩⟩]⟩ := by
    simp [onSendMessage, hsu, jsString]
  refine ⟨rfl, ?_, hsock, ?_⟩
  · exact mem_getMessages_append sender recv t mu now store hcount
  · rw [hsock]
    exact mem_getMessages_append sender recv t mu now store hcount

/-- Witness for the amended C8: with no sockets connected at all, a send
from u1 to u2 via either transport is returned by the subsequent history
query over the store that send produced. -/
theorem send_no_sessions_persists_witness :
    ((⟨some "u1", some "u2", some "hi", none, 5⟩ : Message) ∈
      getMessages "u1" "u2"
        (storeAfter (postMessages "u1" (some "u2") (some "hi") none 5 true []) []))
    ∧ ((⟨some "u1", some "u2", some "hi", none, 5⟩ : Message) ∈
      getMessages "u1" "u2"
        (storeAfter (onSendMessage (some "u1") none (some "u2") (some "hi") none 5 true []) [])) :=
  ⟨(send_no_sessions_persists "u1" "u2" (some "hi") none 5 [] [] (some "u1") none
      rfl rfl (by decide) (by decide)).2.1,
   (send_no_sessions_persists "u1" "u2" (some "hi") none 5 [] [] (some "u1") none
      rfl rfl (by decide) (by decide)).2.2.2⟩
